import Mathlib

/-! pivy: the PIV client library header `piv.h`

A shallow embedding of the protocol constants and data model declared in
`src/piv.h`, together with the properties of them that the specification
relies on.  C enumerators are integers, so each one is a `Nat` constant
carrying the value written in the header; every `enum` also gets the list
of its enumerators, in declaration order.
-/

namespace Piv

/-! ## `enum iso_class` (piv.h:34-37) -/

def CLA_ISO : Nat := 0x00
def CLA_CHAIN : Nat := 0x10

/-! ## `enum iso_ins` (piv.h:43-61) -/

def INS_SELECT : Nat := 0xA4
def INS_GET_DATA : Nat := 0xCB
def INS_VERIFY : Nat := 0x20
def INS_CHANGE_PIN : Nat := 0x24
def INS_RESET_PIN : Nat := 0x2C
def INS_GEN_AUTH : Nat := 0x87
def INS_PUT_DATA : Nat := 0xDB
def INS_GEN_ASYM : Nat := 0x47
def INS_CONTINUE : Nat := 0xC0
def INS_SET_MGMT : Nat := 0xFF
def INS_IMPORT_ASYM : Nat := 0xFE
def INS_GET_VER : Nat := 0xFD
def INS_SET_PIN_RETRIES : Nat := 0xFA
def INS_ATTEST : Nat := 0xF9

/-- All enumerators of `enum iso_ins`, in declaration order. -/
def iso_ins_all : List Nat :=
  [INS_SELECT, INS_GET_DATA, INS_VERIFY, INS_CHANGE_PIN, INS_RESET_PIN,
   INS_GEN_AUTH, INS_PUT_DATA, INS_GEN_ASYM, INS_CONTINUE,
   INS_SET_MGMT, INS_IMPORT_ASYM, INS_GET_VER, INS_SET_PIN_RETRIES, INS_ATTEST]

/-! ## `enum iso_sw` (piv.h:63-78) -/

def SW_NO_ERROR : Nat := 0x9000
def SW_FUNC_NOT_SUPPORTED : Nat := 0x6A81
def SW_CONDITIONS_NOT_SATISFIED : Nat := 0x6985
def SW_SECURITY_STATUS_NOT_SATISFIED : Nat := 0x6982
def SW_BYTES_REMAINING_00 : Nat := 0x6100
def SW_WARNING_NO_CHANGE_00 : Nat := 0x6200
def SW_WARNING_EOF : Nat := 0x6282
def SW_WARNING_00 : Nat := 0x6300
def SW_FILE_NOT_FOUND : Nat := 0x6A82
def SW_INCORRECT_PIN : Nat := 0x63C0
def SW_INCORRECT_P1P2 : Nat := 0x6A86
def SW_WRONG_DATA : Nat := 0x6A80
def SW_OUT_OF_MEMORY : Nat := 0x6A84
def SW_WRONG_LENGTH : Nat := 0x6700

/-- All enumerators of `enum iso_sw`, in declaration order. -/
def iso_sw_all : List Nat :=
  [SW_NO_ERROR, SW_FUNC_NOT_SUPPORTED, SW_CONDITIONS_NOT_SATISFIED,
   SW_SECURITY_STATUS_NOT_SATISFIED, SW_BYTES_REMAINING_00,
   SW_WARNING_NO_CHANGE_00, SW_WARNING_EOF, SW_WARNING_00, SW_FILE_NOT_FOUND,
   SW_INCORRECT_PIN, SW_INCORRECT_P1P2, SW_WRONG_DATA, SW_OUT_OF_MEMORY,
   SW_WRONG_LENGTH]

/-! ## `enum piv_sel_tag` (piv.h:80-87) -/

def PIV_TAG_APT : Nat := 0x61
def PIV_TAG_AID : Nat := 0x4F
def PIV_TAG_AUTHORITY : Nat := 0x79
def PIV_TAG_APP_LABEL : Nat := 0x50
def PIV_TAG_URI : Nat := 0x5F50
def PIV_TAG_ALGS : Nat := 0xAC

/-- All enumerators of `enum piv_sel_tag`, in declaration order. -/
def piv_sel_tag_all : List Nat :=
  [PIV_TAG_APT, PIV_TAG_AID, PIV_TAG_AUTHORITY, PIV_TAG_APP_LABEL,
   PIV_TAG_URI, PIV_TAG_ALGS]

/-! ## `enum piv_tags` (piv.h:89-104) -/

def PIV_TAG_CARDCAP : Nat := 0x5FC107
def PIV_TAG_CHUID : Nat := 0x5FC102
def PIV_TAG_SECOBJ : Nat := 0x5FC106
def PIV_TAG_KEYHIST : Nat := 0x5FC10C
def PIV_TAG_DISCOV : Nat := 0x7E
def PIV_TAG_CERT_9A : Nat := 0x5FC105
def PIV_TAG_CERT_9C : Nat := 0x5FC10A
def PIV_TAG_CERT_9D : Nat := 0x5FC10B
def PIV_TAG_CERT_9E : Nat := 0x5FC101
/-- First retired slot. -/
def PIV_TAG_CERT_82 : Nat := 0x5FC10D
/-- Last retired slot. -/
def PIV_TAG_CERT_95 : Nat := 0x5FC120
def PIV_TAG_CERT_YK_ATTESTATION : Nat := 0x5FFF01

/-- All enumerators of `enum piv_tags`, in declaration order. -/
def piv_tags_all : List Nat :=
  [PIV_TAG_CARDCAP, PIV_TAG_CHUID, PIV_TAG_SECOBJ, PIV_TAG_KEYHIST,
   PIV_TAG_DISCOV, PIV_TAG_CERT_9A, PIV_TAG_CERT_9C, PIV_TAG_CERT_9D,
   PIV_TAG_CERT_9E, PIV_TAG_CERT_82, PIV_TAG_CERT_95,
   PIV_TAG_CERT_YK_ATTESTATION]

/-! ## `enum gen_auth_tag` (piv.h:106-111) -/

def GA_TAG_WITNESS : Nat := 0x80
def GA_TAG_CHALLENGE : Nat := 0x81
def GA_TAG_RESPONSE : Nat := 0x82
def GA_TAG_EXP : Nat := 0x85

/-- All enumerators of `enum gen_auth_tag`, in declaration order. -/
def gen_auth_tag_all : List Nat :=
  [GA_TAG_WITNESS, GA_TAG_CHALLENGE, GA_TAG_RESPONSE, GA_TAG_EXP]

/-! ## `enum piv_cert_comp`, `enum piv_certinfo_flags` (piv.h:132-140) -/

def PIV_COMP_GZIP : Nat := 1
def PIV_COMP_NONE : Nat := 0

/-- All enumerators of `enum piv_cert_comp`, in declaration order. -/
def piv_cert_comp_all : List Nat := [PIV_COMP_GZIP, PIV_COMP_NONE]

def PIV_CI_X509 : Nat := 1 <<< 2
def PIV_CI_COMPTYPE : Nat := 0x03

/-! ## `enum piv_slotid` (piv.h:152-174) -/

def PIV_SLOT_9A : Nat := 0x9A
def PIV_SLOT_9B : Nat := 0x9B
def PIV_SLOT_9C : Nat := 0x9C
def PIV_SLOT_9D : Nat := 0x9D
def PIV_SLOT_9E : Nat := 0x9E
def PIV_SLOT_82 : Nat := 0x82
def PIV_SLOT_95 : Nat := 0x95
def PIV_SLOT_F9 : Nat := 0xF9
def PIV_SLOT_PIV_AUTH : Nat := PIV_SLOT_9A
def PIV_SLOT_ADMIN : Nat := PIV_SLOT_9B
def PIV_SLOT_SIGNATURE : Nat := PIV_SLOT_9C
def PIV_SLOT_KEY_MGMT : Nat := PIV_SLOT_9D
def PIV_SLOT_CARD_AUTH : Nat := PIV_SLOT_9E
def PIV_SLOT_RETIRED_1 : Nat := PIV_SLOT_82
def PIV_SLOT_RETIRED_20 : Nat := PIV_SLOT_95
def PIV_SLOT_YK_ATTESTATION : Nat := PIV_SLOT_F9

/-- The slots that have a certificate tag of their own name in
`enum piv_tags`, each paired with that tag (`PIV_SLOT_xx` with
`PIV_TAG_CERT_xx`). -/
def cert_slot_tags : List (Nat × Nat) :=
  [(PIV_SLOT_9A, PIV_TAG_CERT_9A), (PIV_SLOT_9C, PIV_TAG_CERT_9C),
   (PIV_SLOT_9D, PIV_TAG_CERT_9D), (PIV_SLOT_9E, PIV_TAG_CERT_9E),
   (PIV_SLOT_82, PIV_TAG_CERT_82), (PIV_SLOT_95, PIV_TAG_CERT_95),
   (PIV_SLOT_F9, PIV_TAG_CERT_YK_ATTESTATION)]

/-- The data-object tags of `enum piv_tags` that lie below the retired
range: the certificates of 9A, 9C, 9D, 9E, and CHUID, CCC (card capability),
security object and key history. -/
def fixed_object_tags : List Nat :=
  [PIV_TAG_CERT_9A, PIV_TAG_CERT_9C, PIV_TAG_CERT_9D, PIV_TAG_CERT_9E,
   PIV_TAG_CHUID, PIV_TAG_CARDCAP, PIV_TAG_SECOBJ, PIV_TAG_KEYHIST]

/-- The aligned map from a retired slot identifier to its certificate tag:
the offset of the slot from `PIV_SLOT_82` added to `PIV_TAG_CERT_82`. -/
def retired_cert_tag (slot : Nat) : Nat :=
  PIV_TAG_CERT_82 + (slot - PIV_SLOT_82)

/-! ## Machine integers and `struct apdubuf`, `struct apdu` (piv.h:190-207) -/

/-- An octet string. -/
abbrev bytes := List Nat

/-- C `uint8_t`: the values 0..255. -/
abbrev uint8_t := Fin 256

/-- C `uint16_t`: the values 0..65535. -/
abbrev uint16_t := Fin 65536

structure apdubuf where
  b_data : bytes
  b_offset : Nat
  b_size : Nat
  b_len : Nat

structure apdu where
  a_cls : Nat
  a_ins : Nat
  a_p1 : uint8_t
  a_p2 : uint8_t
  a_le : uint8_t
  a_cmd : apdubuf
  a_sw : uint16_t
  a_reply : apdubuf

/-- Modelled from the spec: the length-form rule of the APDU encoder (the
encoder is in piv.c, which is not part of the sources).  Section 4.A:
extended length (three-byte form) when either body or expected response
exceeds 255; short form otherwise. -/
def apdu_extended_length (body_len le : Nat) : Bool :=
  decide (255 < body_len ∨ 255 < le)

/-! ## BER tags -/

/-- A tag constant written as its big-endian bytes without leading zero
bytes (tags are passed as C `uint`, at most four bytes). -/
def tag_bytes (tag : Nat) : bytes :=
  if tag < 0x100 then [tag]
  else if tag < 0x10000 then [tag / 0x100, tag % 0x100]
  else if tag < 0x1000000 then [tag / 0x10000, tag / 0x100 % 0x100, tag % 0x100]
  else [tag / 0x1000000 % 0x100, tag / 0x10000 % 0x100, tag / 0x100 % 0x100,
        tag % 0x100]

/-- The bytes after the first one of a multi-byte tag: every middle byte has
the high bit set and the last byte has it clear. -/
def ber_tail_ok : bytes → Bool
  | [] => false
  | [l] => l &&& 0x80 == 0
  | m :: rest => m &&& 0x80 == 0x80 && ber_tail_ok rest

/-- The tag rule: a one-byte tag has low five bits different from 0x1F; a
multi-byte tag has a first byte with low five bits equal to 0x1F, followed
by a tail accepted by `ber_tail_ok`. -/
def ber_tag_ok : bytes → Bool
  | [] => false
  | [b] => b &&& 0x1F != 0x1F
  | b :: rest => b &&& 0x1F == 0x1F && ber_tail_ok rest

/-- Modelled from the spec: the continuation bytes of a multi-byte tag in the
tag reader of the BER-TLV codec (tlv.c is not part of the sources).  Section
4.B: subsequent bytes continue while the high bit is set; the first byte
with the high bit clear ends the tag. -/
def tlv_read_tag_cont : bytes → Nat → Option (Nat × bytes)
  | [], _ => none
  | b :: rest, acc =>
    if b &&& 0x80 = 0x80 then tlv_read_tag_cont rest (acc * 0x100 + b)
    else some (acc * 0x100 + b, rest)

/-- Modelled from the spec: the tag reader of the BER-TLV codec (tlv.c is
not part of the sources).  Section 4.B: the first byte's low five bits equal
to 0x1F indicate continuation; subsequent bytes continue while the high bit
is set.  Returns the tag and the unread input, `none` on truncated input. -/
def tlv_read_tag : bytes → Option (Nat × bytes)
  | [] => none
  | b :: rest =>
    if b &&& 0x1F = 0x1F then tlv_read_tag_cont rest b else some (b, rest)

/-- Every tag constant of `enum piv_sel_tag`, `enum piv_tags` and
`enum gen_auth_tag`. -/
def all_tag_constants : List Nat :=
  piv_sel_tag_all ++ piv_tags_all ++ gen_auth_tag_all

/-! ## Command chaining -/

/-- Modelled from the spec: one outbound command frame as the transport puts
it on the wire (piv.c is not part of the sources), reduced to its class byte
and its body. -/
structure frame where
  cls : Nat
  body : bytes
deriving DecidableEq

/-- Modelled from the spec: the class byte of a chained frame (piv.c is not
part of the sources), section 4.C: CLA with the chaining bit (class 0x10)
set. -/
def cls_chain (cls : Nat) : Nat := cls ||| CLA_CHAIN

/-- Modelled from the spec: the class byte of the last frame (piv.c is not
part of the sources), section 4.C: CLA without the chaining bit, on one
byte. -/
def cls_final (cls : Nat) : Nat := cls &&& (0xFF ^^^ CLA_CHAIN)

/-- Modelled from the spec: the chunking loop of `piv_apdu_transceive_chain`
(piv.c is not part of the sources), bounded by the number of iterations
left.  A body within the budget goes out as the final frame;
a longer one sends its first `budget` bytes with the chaining bit set and
continues with the rest. -/
def chain_frames (budget cls : Nat) : Nat → bytes → List frame
  | 0, body => [⟨cls_final cls, body⟩]
  | n + 1, body =>
    if body.length ≤ budget then [⟨cls_final cls, body⟩]
    else ⟨cls_chain cls, body.take budget⟩ ::
      chain_frames budget cls n (body.drop budget)

/-- Modelled from the spec: `piv_apdu_transceive_chain` (declared at
piv.h:296; its body is in piv.c, which is not part of the sources).
Section 4.C: when a command body exceeds the APDU body budget, the transport
splits it into chunks and sends each as CLA with the chaining bit (class
0x10) set for all but the last.  The result is the sequence of frames put on
the wire when the card accepts every chunk; `budget` is the APDU body
budget, which the spec leaves open.  A body of n bytes needs at most n
iterations when the budget is positive. -/
def piv_apdu_transceive_chain (budget cls : Nat) (body : bytes) : List frame :=
  chain_frames budget cls body.length body

/-! ## The ECDH sealed box (`struct piv_ecdh_box`, piv.h:256-271, and the
`piv_box_*` functions declared at piv.h:562-580)

The bodies of the `piv_box_*` functions are in piv.c, which is not part of
the sources; they are modelled from section 4.I of the spec.  The spec treats
the EC, KDF and cipher primitives as external collaborators, and names the
parts of the serialized form without fixing their bytes; both are parameters
of the model, with the contracts the spec relies on collected in
`box_prims.lawful`. -/

/-- Modelled from the spec: the error kinds the sealed-box operations
surface (section 7; piv.c, which returns them, is not part of the
sources). -/
inductive box_err where
  | invalid
  | invalid_data
  | unsupported
  | integrity
deriving DecidableEq

/-- Modelled from the spec: the external primitives (sections 1 and 6) and
the framing constants of the sealed box, none of them part of the sources.
`kdf name z len` derives `len` bytes of key from the shared secret `z`;
`encrypt cipher key iv plain` and `decrypt cipher key iv enc` are the named
cipher (`none`: the authentication tag failed); `put_key`, `get_key` are the
public-key encoding; `put_field`, `get_field` write and read one
self-describing field, `get_field` returning the field and the unread
input. -/
structure box_prims (Pub Priv : Type) where
  pub_of : Priv → Pub
  ecdh : Priv → Pub → bytes
  kdf : bytes → bytes → Nat → bytes
  key_len : bytes → Nat
  encrypt : bytes → bytes → bytes → bytes → bytes
  decrypt : bytes → bytes → bytes → bytes → Option bytes
  put_key : Pub → bytes
  get_key : bytes → Option Pub
  put_field : bytes → bytes
  get_field : bytes → Option (bytes × bytes)
  magic : bytes
  version : Nat
  default_cipher : bytes
  default_kdf : bytes

/-- Modelled from the spec: the contracts of the external primitives, which
are not part of the sources: ECDH agrees from both sides,
decryption inverts encryption under the same key and IV, a public key and a
field read back as written. -/
structure box_prims.lawful {Pub Priv : Type} (C : box_prims Pub Priv) : Prop where
  ecdh_comm : ∀ a b : Priv, C.ecdh a (C.pub_of b) = C.ecdh b (C.pub_of a)
  decrypt_encrypt : ∀ cipher key iv plain,
    C.decrypt cipher key iv (C.encrypt cipher key iv plain) = some plain
  get_put_key : ∀ k, C.get_key (C.put_key k) = some k
  get_put_field : ∀ x rest, C.get_field (C.put_field x ++ rest) = some (x, rest)

/-- The `struct piv_ecdh_box` of piv.h.  The key pointers, the two strings
and the three buffers are `none` when the C field is NULL or empty. -/
structure piv_ecdh_box (Pub : Type) where
  pdb_guidslot_valid : Bool
  pdb_guid : bytes
  pdb_slot : Nat
  pdb_ephem_pub : Option Pub
  pdb_pub : Option Pub
  pdb_free_str : Bool
  pdb_cipher : Option bytes
  pdb_kdf : Option bytes
  pdb_iv : Option bytes
  pdb_enc : Option bytes
  pdb_plain : Option bytes

/-- Modelled from the spec: `piv_box_new` (body in piv.c, not part of the
sources): an empty box, nothing present. -/
def piv_box_new {Pub : Type} : piv_ecdh_box Pub :=
  { pdb_guidslot_valid := false, pdb_guid := [], pdb_slot := 0,
    pdb_ephem_pub := none, pdb_pub := none, pdb_free_str := false,
    pdb_cipher := none, pdb_kdf := none,
    pdb_iv := none, pdb_enc := none, pdb_plain := none }

/-- Modelled from the spec: `piv_box_set_data` (body in piv.c, not part of
the sources): stores the plaintext in the transient plaintext buffer. -/
def piv_box_set_data {Pub : Type} (box : piv_ecdh_box Pub) (data : bytes) :
    piv_ecdh_box Pub :=
  { box with pdb_plain := some data }

/-- Modelled from the spec: `piv_box_seal_offline` (body in piv.c, not part
of the sources).  Section 4.I: ECDH between the ephemeral private key and
the recipient public key gives Z; Z goes through the named KDF (the default
when none is named) to a key of the length the named cipher requires; the
plaintext is encrypted under (key, IV); the record captures the ephemeral
public key, the recipient public key, cipher name, KDF name, IV and
ciphertext, and the plaintext is released.  The ephemeral private key and
the IV, drawn at random by the code, are arguments. -/
def piv_box_seal_offline {Pub Priv : Type} (C : box_prims Pub Priv)
    (ephem : Priv) (iv : bytes) (pubk : Pub) (box : piv_ecdh_box Pub) :
    Except box_err (piv_ecdh_box Pub) :=
  match box.pdb_plain with
  | none => .error .invalid
  | some plain =>
    let cipher := box.pdb_cipher.getD C.default_cipher
    let kdf := box.pdb_kdf.getD C.default_kdf
    let z := C.ecdh ephem pubk
    let key := C.kdf kdf z (C.key_len cipher)
    .ok { box with
      pdb_ephem_pub := some (C.pub_of ephem), pdb_pub := some pubk,
      pdb_cipher := some cipher, pdb_kdf := some kdf,
      pdb_iv := some iv, pdb_enc := some (C.encrypt cipher key iv plain),
      pdb_plain := none }

/-- Modelled from the spec: `piv_box_to_binary` (body in piv.c, not part of
the sources).  Section 4.I: outer magic, version, then the fields: the
optional (GUID, slot) pair behind a presence byte, the recipient key, the
ephemeral key, cipher name, KDF name, IV and ciphertext.  The plaintext is
never written. -/
def piv_box_to_binary {Pub Priv : Type} (C : box_prims Pub Priv)
    (box : piv_ecdh_box Pub) : Except box_err bytes :=
  match box.pdb_pub, box.pdb_ephem_pub, box.pdb_cipher, box.pdb_kdf,
      box.pdb_iv, box.pdb_enc with
  | some pub, some ephem, some cipher, some kdf, some iv, some enc =>
    .ok (C.magic ++ C.version ::
      ((if box.pdb_guidslot_valid then
          1 :: (C.put_field box.pdb_guid ++ [box.pdb_slot])
        else [0]) ++
       (C.put_field (C.put_key pub) ++ (C.put_field (C.put_key ephem) ++
       (C.put_field cipher ++ (C.put_field kdf ++
       (C.put_field iv ++ C.put_field enc)))))))
  | _, _, _, _, _, _ => .error .invalid

/-- Modelled from the spec: the reader of the optional (GUID, slot) pair in
`piv_box_from_binary` (piv.c is not part of the sources): the presence byte,
then the GUID field and the slot byte when it is 1. -/
def get_guidslot {Pub Priv : Type} (C : box_prims Pub Priv) :
    bytes → Except box_err ((Bool × bytes × Nat) × bytes)
  | 0 :: rest => .ok ((false, [], 0), rest)
  | 1 :: rest =>
    match C.get_field rest with
    | some (guid, slot :: rest) => .ok ((true, guid, slot), rest)
    | _ => .error .invalid_data
  | _ => .error .invalid_data

/-- Modelled from the spec: the reader of one field of bytes in
`piv_box_from_binary` (piv.c is not part of the sources). -/
def get_bytes_field {Pub Priv : Type} (C : box_prims Pub Priv)
    (input : bytes) : Except box_err (bytes × bytes) :=
  match C.get_field input with
  | some r => .ok r
  | none => .error .invalid_data

/-- Modelled from the spec: the reader of one field holding an encoded
public key in `piv_box_from_binary` (piv.c is not part of the sources). -/
def get_key_field {Pub Priv : Type} (C : box_prims Pub Priv)
    (input : bytes) : Except box_err (Pub × bytes) :=
  match C.get_field input with
  | some (kb, rest) =>
    match C.get_key kb with
    | some k => .ok (k, rest)
    | none => .error .invalid_data
  | none => .error .invalid_data

/-- Modelled from the spec: `piv_box_from_binary` (body in piv.c, not part
of the sources).  Section 4.I: checks the magic, then the version byte
(unknown version: `unsupported`), then reads the fields in the order
`piv_box_to_binary` writes them.  The box it returns holds ciphertext and
no plaintext. -/
def piv_box_from_binary {Pub Priv : Type} (C : box_prims Pub Priv)
    (input : bytes) : Except box_err (piv_ecdh_box Pub) :=
  if input.take C.magic.length ≠ C.magic then .error .invalid_data
  else
    match input.drop C.magic.length with
    | [] => .error .invalid_data
    | ver :: rest =>
      if ver ≠ C.version then .error .unsupported
      else do
        let (gs, rest) ← get_guidslot C rest
        let (pub, rest) ← get_key_field C rest
        let (ephem, rest) ← get_key_field C rest
        let (cipher, rest) ← get_bytes_field C rest
        let (kdf, rest) ← get_bytes_field C rest
        let (iv, rest) ← get_bytes_field C rest
        let (enc, _) ← get_bytes_field C rest
        pure { pdb_guidslot_valid := gs.1, pdb_guid := gs.2.1,
               pdb_slot := gs.2.2,
               pdb_ephem_pub := some ephem, pdb_pub := some pub,
               pdb_free_str := true,
               pdb_cipher := some cipher, pdb_kdf := some kdf,
               pdb_iv := some iv, pdb_enc := some enc, pdb_plain := none }

/-- Modelled from the spec: `piv_box_open_offline` (body in piv.c, not part
of the sources).  Section 4.I: ECDH between the private key and the stored
ephemeral public key gives Z; the remainder mirrors sealing in reverse.  On
tag failure the result is `integrity` and the plaintext buffer is not
populated; on success the plaintext replaces the ciphertext (section 3:
plaintext present XOR ciphertext present). -/
def piv_box_open_offline {Pub Priv : Type} (C : box_prims Pub Priv)
    (privkey : Priv) (box : piv_ecdh_box Pub) :
    Except box_err (piv_ecdh_box Pub) :=
  match box.pdb_ephem_pub, box.pdb_cipher, box.pdb_kdf, box.pdb_iv,
      box.pdb_enc with
  | some ephem, some cipher, some kdf, some iv, some enc =>
    let z := C.ecdh privkey ephem
    let key := C.kdf kdf z (C.key_len cipher)
    match C.decrypt cipher key iv enc with
    | none => .error .integrity
    | some plain => .ok { box with pdb_enc := none, pdb_plain := some plain }
  | _, _, _, _, _ => .error .invalid

/-- Modelled from the spec: `piv_box_take_data` (body in piv.c, not part of
the sources): hands the plaintext to the caller and empties the transient
plaintext buffer. -/
def piv_box_take_data {Pub : Type} (box : piv_ecdh_box Pub) :
    Except box_err (bytes × piv_ecdh_box Pub) :=
  match box.pdb_plain with
  | none => .error .invalid
  | some plain => .ok (plain, { box with pdb_plain := none })

/-- The offline life of a box: `piv_box_set_data` on a new box, then
`piv_box_seal_offline`, `piv_box_to_binary`, `piv_box_from_binary`,
`piv_box_open_offline` and `piv_box_take_data`; the result is the data
taken, or the first error. -/
def box_offline_roundtrip {Pub Priv : Type} (C : box_prims Pub Priv)
    (ephem : Priv) (iv : bytes) (pk : Pub) (sk : Priv) (P : bytes) :
    Except box_err bytes := do
  let sealed ← piv_box_seal_offline C ephem iv pk (piv_box_set_data piv_box_new P)
  let bin ← piv_box_to_binary C sealed
  let parsed ← piv_box_from_binary C bin
  let opened ← piv_box_open_offline C sk parsed
  let (data, _) ← piv_box_take_data opened
  pure data

/-! ### A small instance of the primitives

Keys are numbers with the public key equal to the private one, the shared
secret is the product, the cipher prefixes the plaintext with a tag computed
from key and IV, and a field is its length followed by its bytes. -/

/-- Reads a field written as its length followed by its bytes. -/
def toy_get_field : bytes → Option (bytes × bytes)
  | [] => none
  | n :: rest => if n ≤ rest.length then some (rest.take n, rest.drop n) else none

/-- Checks the tag and strips it. -/
def toy_decrypt (key iv : bytes) : bytes → Option bytes
  | [] => none
  | t :: ct => if t = key.sum + iv.sum then some ct else none

/-- Reads a key written as a single number. -/
def toy_get_key : bytes → Option Nat
  | [k] => some k
  | _ => none

def toy_prims : box_prims Nat Nat :=
  { pub_of := fun s => s,
    ecdh := fun a b => [a * b],
    kdf := fun _ z len => z ++ List.replicate len 0,
    key_len := fun _ => 2,
    encrypt := fun _ key iv plain => (key.sum + iv.sum) :: plain,
    decrypt := fun _ key iv enc => toy_decrypt key iv enc,
    put_key := fun k => [k],
    get_key := toy_get_key,
    put_field := fun x => x.length :: x,
    get_field := toy_get_field,
    magic := [0xB0, 0xC5],
    version := 1,
    default_cipher := [1],
    default_kdf := [2] }

/-! # Theorems -/

/-! ## Status words -/

/-- C3 (as stated, refuted): `enum iso_sw` has no constant for the
"wrong length, Le should be N" family: 0x6C00 is not among its enumerators,
and the word 0x6C05 masked with 0xFF00 or with 0xFFF0 equals none of them. -/
theorem iso_sw_lacks_6C_family :
    ¬ (0x6C00 ∈ iso_sw_all ∨
       ∃ c ∈ iso_sw_all, ∃ mask ∈ [0xFF00, 0xFFF0], (0x6C00 + 5) &&& mask = c) := by
  decide

/-- C3 (amended): `enum iso_sw` defines success 0x9000, the "bytes
remaining" family base 0x6100, "warning, EOF" 0x6282, "security not
satisfied" 0x6982, the "PIN incorrect" family base 0x63C0 and "not found"
0x6A82; every word 0x6100+N with N < 256 masked with 0xFF00 is
`SW_BYTES_REMAINING_00`, and every word 0x63C0+M with M < 16 masked with
0xFFF0 is `SW_INCORRECT_PIN`.  The only length constant is
`SW_WRONG_LENGTH` = 0x6700. -/
theorem iso_sw_families (N M : Nat) (hN : N < 256) (hM : M < 16) :
    SW_NO_ERROR = 0x9000 ∧ SW_BYTES_REMAINING_00 = 0x6100 ∧
    SW_WARNING_EOF = 0x6282 ∧ SW_SECURITY_STATUS_NOT_SATISFIED = 0x6982 ∧
    SW_INCORRECT_PIN = 0x63C0 ∧ SW_FILE_NOT_FOUND = 0x6A82 ∧
    SW_WRONG_LENGTH = 0x6700 ∧
    [SW_NO_ERROR, SW_BYTES_REMAINING_00, SW_WARNING_EOF,
     SW_SECURITY_STATUS_NOT_SATISFIED, SW_INCORRECT_PIN, SW_FILE_NOT_FOUND,
     SW_WRONG_LENGTH] ⊆ iso_sw_all ∧
    (0x6100 + N) &&& 0xFF00 = SW_BYTES_REMAINING_00 ∧
    (0x63C0 + M) &&& 0xFFF0 = SW_INCORRECT_PIN := by
  refine ⟨rfl, rfl, rfl, rfl, rfl, rfl, rfl, by decide, ?_, ?_⟩
  · interval_cases N <;> rfl
  · interval_cases M <;> rfl

/-- Witness of `iso_sw_families` at the last word of each family, 0x61FF
and 0x63CF. -/
theorem iso_sw_families_witness :
    (255 < 256 ∧ 15 < 16) ∧
    (0x6100 + 255) &&& 0xFF00 = SW_BYTES_REMAINING_00 ∧
    (0x63C0 + 15) &&& 0xFFF0 = SW_INCORRECT_PIN :=
  ⟨⟨by decide, by decide⟩,
   (iso_sw_families 255 15 (by decide) (by decide)).2.2.2.2.2.2.2.2⟩

/-! ## Instruction codes -/

/-- C5: the instruction codes of `enum iso_ins` have the values the spec
gives (GET RESPONSE 0xC0, GENERAL AUTHENTICATE 0x87, CHANGE PIN 0x24, RESET
PIN 0x2C, GENERATE ASYMMETRIC 0x47, PUT DATA 0xDB, Yubico version query
0xFD), and all fourteen codes of the enum are pairwise distinct single
bytes. -/
theorem iso_ins_codes :
    INS_CONTINUE = 0xC0 ∧ INS_GEN_AUTH = 0x87 ∧ INS_CHANGE_PIN = 0x24 ∧
    INS_RESET_PIN = 0x2C ∧ INS_GEN_ASYM = 0x47 ∧ INS_PUT_DATA = 0xDB ∧
    INS_GET_VER = 0xFD ∧
    iso_ins_all.length = 14 ∧ iso_ins_all.Nodup ∧
    ∀ c ∈ iso_ins_all, c < 0x100 := by
  decide

/-! ## Slots and data-object tags -/

/-- C6: slot 9A is 0x9A and its data-object tag is 0x5FC105, the three bytes
5F C1 05; the slots 9A, 9C, 9D, 9E, 82, 95, F9 are pairwise distinct and so
are their certificate tags, so two entries of the table agree on the slot
exactly when they agree on the tag. -/
theorem cert_slot_tags_one_to_one :
    PIV_SLOT_9A = 0x9A ∧ PIV_TAG_CERT_9A = 0x5FC105 ∧
    tag_bytes PIV_TAG_CERT_9A = [0x5F, 0xC1, 0x05] ∧
    (PIV_SLOT_9A, PIV_TAG_CERT_9A) ∈ cert_slot_tags ∧
    (cert_slot_tags.map Prod.fst).Nodup ∧
    (cert_slot_tags.map Prod.snd).Nodup ∧
    ∀ p ∈ cert_slot_tags, ∀ q ∈ cert_slot_tags, (p.1 = q.1 ↔ p.2 = q.2) := by
  decide

/-- C7: the GENERAL AUTHENTICATE inner tags are witness 0x80, challenge
0x81, response 0x82 and exponentiation 0x85, pairwise distinct, each a tag
of one byte. -/
theorem gen_auth_tags_exact :
    GA_TAG_WITNESS = 0x80 ∧ GA_TAG_CHALLENGE = 0x81 ∧
    GA_TAG_RESPONSE = 0x82 ∧ GA_TAG_EXP = 0x85 ∧
    gen_auth_tag_all.Nodup ∧
    ∀ t ∈ gen_auth_tag_all, t < 0x100 ∧ (tag_bytes t).length = 1 := by
  decide

/-- C8: every tag constant of `enum piv_sel_tag`, `enum piv_tags` and
`enum gen_auth_tag`, written as big-endian bytes without leading zero
bytes, satisfies the tag rule, and the tag reader parses those bytes as
exactly that one tag with no byte left over. -/
theorem tag_constants_well_formed (t : Nat) (ht : t ∈ all_tag_constants) :
    ber_tag_ok (tag_bytes t) = true ∧
    tlv_read_tag (tag_bytes t) = some (t, []) := by
  revert t
  decide

/-- Witness of `tag_constants_well_formed` at the two-byte tag 0x5F50. -/
theorem tag_constants_well_formed_witness :
    PIV_TAG_URI ∈ all_tag_constants ∧
    ber_tag_ok (tag_bytes PIV_TAG_URI) = true ∧
    tlv_read_tag (tag_bytes PIV_TAG_URI) = some (PIV_TAG_URI, []) :=
  ⟨by decide, tag_constants_well_formed PIV_TAG_URI (by decide)⟩

/-- C9: the retired slot range and the retired certificate tag range both
span 19 (20 slots, RETIRED_1..RETIRED_20) and are aligned; for slots s, t
in [0x82, 0x95] the tag `PIV_TAG_CERT_82 + (s - 0x82)` lies in
[`PIV_TAG_CERT_82`, `PIV_TAG_CERT_95`], equal tags come from equal slots,
and the tag is none of those of 9A, 9C, 9D, 9E, CHUID, CCC, security object
or key history. -/
theorem retired_tags_aligned (s t : Nat)
    (hs : PIV_SLOT_82 ≤ s ∧ s ≤ PIV_SLOT_95)
    (ht : PIV_SLOT_82 ≤ t ∧ t ≤ PIV_SLOT_95) :
    PIV_SLOT_95 - PIV_SLOT_82 = 19 ∧
    PIV_TAG_CERT_95 - PIV_TAG_CERT_82 = 19 ∧
    PIV_SLOT_RETIRED_1 = PIV_SLOT_82 ∧ PIV_SLOT_RETIRED_20 = PIV_SLOT_95 ∧
    retired_cert_tag PIV_SLOT_82 = PIV_TAG_CERT_82 ∧
    retired_cert_tag PIV_SLOT_95 = PIV_TAG_CERT_95 ∧
    PIV_TAG_CERT_82 ≤ retired_cert_tag s ∧
    retired_cert_tag s ≤ PIV_TAG_CERT_95 ∧
    (retired_cert_tag s = retired_cert_tag t → s = t) ∧
    retired_cert_tag s ∉ fixed_object_tags := by
  obtain ⟨hs1, hs2⟩ := hs
  obtain ⟨ht1, ht2⟩ := ht
  simp only [PIV_SLOT_82, PIV_SLOT_95] at hs1 hs2 ht1 ht2
  refine ⟨rfl, rfl, rfl, rfl, rfl, rfl, ?_, ?_, ?_, ?_⟩
  · simp only [retired_cert_tag, PIV_TAG_CERT_82, PIV_SLOT_82]; omega
  · simp only [retired_cert_tag, PIV_TAG_CERT_82, PIV_TAG_CERT_95, PIV_SLOT_82]; omega
  · simp only [retired_cert_tag, PIV_TAG_CERT_82, PIV_SLOT_82]; omega
  · simp only [retired_cert_tag, fixed_object_tags, PIV_TAG_CERT_82, PIV_SLOT_82,
      PIV_TAG_CERT_9A, PIV_TAG_CERT_9C, PIV_TAG_CERT_9D, PIV_TAG_CERT_9E,
      PIV_TAG_CHUID, PIV_TAG_CARDCAP, PIV_TAG_SECOBJ, PIV_TAG_KEYHIST,
      List.mem_cons, List.mem_singleton, List.not_mem_nil, or_false, not_or]
    omega

/-- Witness of `retired_tags_aligned` at the slots 0x83 and 0x95: their
tags are 0x5FC10E and 0x5FC120. -/
theorem retired_tags_aligned_witness :
    ((PIV_SLOT_82 ≤ 0x83 ∧ 0x83 ≤ PIV_SLOT_95) ∧
     (PIV_SLOT_82 ≤ 0x95 ∧ 0x95 ≤ PIV_SLOT_95)) ∧
    retired_cert_tag 0x83 = 0x5FC10E ∧ retired_cert_tag 0x95 = 0x5FC120 ∧
    (retired_cert_tag 0x83 = retired_cert_tag 0x95 → 0x83 = 0x95) ∧
    retired_cert_tag 0x83 ∉ fixed_object_tags :=
  ⟨⟨by decide, by decide⟩, by decide, by decide,
   (retired_tags_aligned 0x83 0x95 (by decide) (by decide)).2.2.2.2.2.2.2.2.1,
   (retired_tags_aligned 0x83 0x95 (by decide) (by decide)).2.2.2.2.2.2.2.2.2⟩

/-! ## Certificate-info flags -/

/-- C10: both compression values lie inside the mask `PIV_CI_COMPTYPE`
(0x03), the `PIV_CI_X509` bit lies outside it, and for every compression
value c and every x in {0, `PIV_CI_X509`} the union c | x gives back c
under `PIV_CI_COMPTYPE` and x under `PIV_CI_X509`. -/
theorem certinfo_flags_unambiguous (c x : Nat)
    (hc : c = PIV_COMP_NONE ∨ c = PIV_COMP_GZIP)
    (hx : x = 0 ∨ x = PIV_CI_X509) :
    PIV_COMP_NONE = 0 ∧ PIV_COMP_GZIP = 1 ∧ PIV_CI_COMPTYPE = 0x03 ∧
    PIV_CI_X509 = 4 ∧
    c &&& PIV_CI_COMPTYPE = c ∧
    PIV_CI_X509 &&& PIV_CI_COMPTYPE = 0 ∧
    (c ||| x) &&& PIV_CI_COMPTYPE = c ∧
    (c ||| x) &&& PIV_CI_X509 = x := by
  rcases hc with h | h <;> rcases hx with h2 | h2 <;> subst h <;> subst h2 <;> decide

/-- Witness of `certinfo_flags_unambiguous` at gzip with the X.509 bit,
flags = 5. -/
theorem certinfo_flags_unambiguous_witness :
    ((PIV_COMP_GZIP = PIV_COMP_NONE ∨ PIV_COMP_GZIP = PIV_COMP_GZIP) ∧
     (PIV_CI_X509 = 0 ∨ PIV_CI_X509 = PIV_CI_X509)) ∧
    (PIV_COMP_GZIP ||| PIV_CI_X509) = 5 ∧
    (PIV_COMP_GZIP ||| PIV_CI_X509) &&& PIV_CI_COMPTYPE = PIV_COMP_GZIP ∧
    (PIV_COMP_GZIP ||| PIV_CI_X509) &&& PIV_CI_X509 = PIV_CI_X509 :=
  ⟨⟨Or.inr rfl, Or.inr rfl⟩, by decide,
   (certinfo_flags_unambiguous PIV_COMP_GZIP PIV_CI_X509
     (Or.inr rfl) (Or.inr rfl)).2.2.2.2.2.2⟩

/-! ## The expected-length hint of `struct apdu` -/

/-- C4 (as stated, refuted): no `struct apdu` has an expected-length hint
above 255, since `a_le` is a `uint8_t`. -/
theorem apdu_le_never_above_255 : ¬ ∃ a : apdu, 255 < a.a_le.val := by
  rintro ⟨a, h⟩
  have := a.a_le.isLt
  omega

/-- C4 (amended): the expected-length hint of every `struct apdu` is at
most 255, and 255 is reached; so under the length-form rule an APDU takes
the extended form exactly when its body exceeds 255 bytes. -/
theorem apdu_le_is_one_byte :
    (∀ a : apdu, a.a_le.val ≤ 255) ∧
    (∃ a : apdu, a.a_le.val = 255) ∧
    (∀ a : apdu, apdu_extended_length a.a_cmd.b_len a.a_le.val =
      decide (255 < a.a_cmd.b_len)) := by
  refine ⟨fun a => ?_, ?_, fun a => ?_⟩
  · have := a.a_le.isLt
    omega
  · exact ⟨⟨CLA_ISO, INS_SELECT, 0, 0, 255, ⟨[], 0, 0, 0⟩, 0, ⟨[], 0, 0, 0⟩⟩, rfl⟩
  · have := a.a_le.isLt
    have h : ¬ 255 < a.a_le.val := by omega
    simp [apdu_extended_length, h]

/-! ## Command chaining -/

/-- The bodies of the frames concatenate to the command body. -/
theorem chain_frames_bodies (budget cls n : Nat) (body : bytes) :
    ((chain_frames budget cls n body).map frame.body).flatten = body := by
  induction n generalizing body with
  | zero => simp [chain_frames]
  | succ n ih =>
    unfold chain_frames
    split
    · simp
    · simp [ih, List.take_append_drop]

/-- The frames are a run of chained frames followed by one final frame. -/
theorem chain_frames_classes (budget cls n : Nat) (body : bytes) :
    ∃ init last, chain_frames budget cls n body = init ++ [last] ∧
      (∀ f ∈ init, f.cls = cls_chain cls) ∧ last.cls = cls_final cls := by
  induction n generalizing body with
  | zero => exact ⟨[], ⟨cls_final cls, body⟩, by simp [chain_frames], by simp, rfl⟩
  | succ n ih =>
    unfold chain_frames
    split
    · exact ⟨[], ⟨cls_final cls, body⟩, by simp, by simp, rfl⟩
    · obtain ⟨init, last, h1, h2, h3⟩ := ih (body.drop budget)
      refine ⟨⟨cls_chain cls, body.take budget⟩ :: init, last, by simp [h1], ?_, h3⟩
      intro f hf
      rcases List.mem_cons.1 hf with h | h
      · subst h; rfl
      · exact h2 f h

/-- With a positive budget and enough iterations no frame exceeds the
budget. -/
theorem chain_frames_within_budget (budget cls : Nat) (hb : 0 < budget)
    (n : Nat) (body : bytes) (hn : body.length ≤ n) :
    ∀ f ∈ chain_frames budget cls n body, f.body.length ≤ budget := by
  induction n generalizing body with
  | zero =>
    intro f hf
    simp [chain_frames] at hf
    subst hf
    simp at hn ⊢
    simp [hn]
  | succ n ih =>
    unfold chain_frames
    split
    · intro f hf
      simp at hf
      subst hf
      assumption
    · intro f hf
      rcases List.mem_cons.1 hf with h | h
      · subst h; simp
      · exact ih (body.drop budget) (by simp; omega) f h

/-- No frame of `piv_apdu_transceive_chain` exceeds a positive budget. -/
theorem transceive_chain_within_budget (budget cls : Nat) (hb : 0 < budget)
    (B : bytes) :
    ∀ f ∈ piv_apdu_transceive_chain budget cls B, f.body.length ≤ budget :=
  chain_frames_within_budget budget cls hb B.length B (Nat.le_refl _)

/-- C2: for every command body B with |B| ≤ 65535 (and an APDU class of
`enum iso_class`), the bodies of the frames `piv_apdu_transceive_chain`
sends concatenate to exactly B, every frame but the last has `CLA_CHAIN`
set, and the last frame has the chaining bit clear, its class being
`CLA_ISO`. -/
theorem transceive_chain_delivers (budget cls : Nat) (B : bytes)
    (_hB : B.length ≤ 65535) (hcls : cls = CLA_ISO ∨ cls = CLA_CHAIN) :
    ((piv_apdu_transceive_chain budget cls B).map frame.body).flatten = B ∧
    ∃ init last, piv_apdu_transceive_chain budget cls B = init ++ [last] ∧
      (∀ f ∈ init, f.cls &&& CLA_CHAIN = CLA_CHAIN) ∧
      last.cls &&& CLA_CHAIN = 0 ∧ last.cls = CLA_ISO := by
  refine ⟨chain_frames_bodies budget cls B.length B, ?_⟩
  obtain ⟨init, last, h1, h2, h3⟩ := chain_frames_classes budget cls B.length B
  refine ⟨init, last, h1, ?_, ?_, ?_⟩
  · intro f hf
    rw [h2 f hf]
    rcases hcls with h | h <;> subst h <;> decide
  · rw [h3]
    rcases hcls with h | h <;> subst h <;> decide
  · rw [h3]
    rcases hcls with h | h <;> subst h <;> decide

/-- Witness of `transceive_chain_delivers`: a body of five bytes under a
budget of two goes out as three frames. -/
theorem transceive_chain_delivers_witness :
    (([1, 2, 3, 4, 5] : bytes).length ≤ 65535 ∧
     (CLA_ISO = CLA_ISO ∨ CLA_ISO = CLA_CHAIN)) ∧
    piv_apdu_transceive_chain 2 CLA_ISO [1, 2, 3, 4, 5] =
      [⟨CLA_CHAIN, [1, 2]⟩, ⟨CLA_CHAIN, [3, 4]⟩, ⟨CLA_ISO, [5]⟩] ∧
    ((piv_apdu_transceive_chain 2 CLA_ISO [1, 2, 3, 4, 5]).map frame.body).flatten =
      [1, 2, 3, 4, 5] :=
  ⟨⟨by decide, Or.inl rfl⟩, by decide,
   (transceive_chain_delivers 2 CLA_ISO [1, 2, 3, 4, 5] (by decide) (Or.inl rfl)).1⟩

/-! ## The sealed box -/

/-- The small instance satisfies the contracts. -/
theorem toy_prims_lawful : toy_prims.lawful where
  ecdh_comm := fun a b => by simp [toy_prims, Nat.mul_comm]
  decrypt_encrypt := fun cipher key iv plain => by simp [toy_prims, toy_decrypt]
  get_put_key := fun k => by simp [toy_prims, toy_get_key]
  get_put_field := fun x rest => by simp [toy_prims, toy_get_field]

/-- Sealing a box that holds plaintext succeeds and leaves ciphertext and no
plaintext. -/
theorem seal_offline_clears_plain {Pub Priv : Type} (C : box_prims Pub Priv)
    (ephem : Priv) (iv : bytes) (pk : Pub) (P : bytes) :
    ∃ b, piv_box_seal_offline C ephem iv pk (piv_box_set_data piv_box_new P) = .ok b ∧
      b.pdb_plain = none ∧ b.pdb_enc.isSome = true ∧ b.pdb_iv = some iv ∧
      b.pdb_pub = some pk ∧ b.pdb_ephem_pub = some (C.pub_of ephem) := by
  simp [piv_box_seal_offline, piv_box_set_data, piv_box_new]

/-- An input whose version byte is not the known one is `unsupported`. -/
theorem from_binary_unknown_version {Pub Priv : Type} (C : box_prims Pub Priv)
    (ver : Nat) (rest : bytes) (hv : ver ≠ C.version) :
    piv_box_from_binary C (C.magic ++ ver :: rest) = .error .unsupported := by
  simp [piv_box_from_binary, hv]

/-- The serialized form reads back: every part `piv_box_to_binary` writes is
the part `piv_box_from_binary` returns, and the box read holds no
plaintext. -/
theorem from_binary_to_binary {Pub Priv : Type} (C : box_prims Pub Priv)
    (hC : C.lawful) (box : piv_ecdh_box Pub) (bin : bytes)
    (h : piv_box_to_binary C box = .ok bin) :
    ∃ b, piv_box_from_binary C bin = .ok b ∧
      b.pdb_pub = box.pdb_pub ∧ b.pdb_ephem_pub = box.pdb_ephem_pub ∧
      b.pdb_cipher = box.pdb_cipher ∧ b.pdb_kdf = box.pdb_kdf ∧
      b.pdb_iv = box.pdb_iv ∧ b.pdb_enc = box.pdb_enc ∧ b.pdb_plain = none ∧
      b.pdb_guidslot_valid = box.pdb_guidslot_valid ∧
      (box.pdb_guidslot_valid = true →
        b.pdb_guid = box.pdb_guid ∧ b.pdb_slot = box.pdb_slot) := by
  have hlast : ∀ x, C.get_field (C.put_field x) = some (x, []) := fun x => by
    simpa using hC.get_put_field x []
  obtain ⟨v, g, sl, ep, pb, fs, ci, kd, iv, en, pl⟩ := box
  cases pb <;> cases ep <;> cases ci <;> cases kd <;> cases iv <;> cases en <;>
    simp [piv_box_to_binary] at h
  subst h
  cases v <;>
  simp [piv_box_from_binary, get_guidslot, get_key_field, get_bytes_field,
    hC.get_put_field, hlast, hC.get_put_key, bind, Except.bind, pure, Except.pure]

/-- On the small instance, the serialized form of a sealed box is the magic,
the version, the presence byte and the six fields, and opening with another
private key fails with `integrity`. -/
theorem toy_box_bytes_and_wrong_key :
    (piv_box_seal_offline toy_prims 7 [1, 2] 5
        (piv_box_set_data piv_box_new [10, 20])).bind (piv_box_to_binary toy_prims) =
      .ok [0xB0, 0xC5, 1, 0, 1, 5, 1, 7, 1, 1, 1, 2, 2, 1, 2, 3, 38, 10, 20] ∧
    box_offline_roundtrip toy_prims 7 [1, 2] 5 6 [10, 20, 30] = .error .integrity :=
  ⟨rfl, rfl⟩

/-- C1: for every plaintext P (of any length) and every key pair (pk, sk),
`piv_box_set_data`, `piv_box_seal_offline` to pk, `piv_box_to_binary`,
`piv_box_from_binary`, `piv_box_open_offline` with sk and
`piv_box_take_data` succeed and return exactly P, whatever ephemeral key
and IV the sealing draws, given the contracts of the primitives. -/
theorem box_offline_roundtrip_exact {Pub Priv : Type} (C : box_prims Pub Priv)
    (hC : C.lawful) (ephem : Priv) (iv : bytes) (pk : Pub) (sk : Priv)
    (hkp : pk = C.pub_of sk) (P : bytes) :
    box_offline_roundtrip C ephem iv pk sk P = .ok P := by
  subst hkp
  have hlast : ∀ x, C.get_field (C.put_field x) = some (x, []) := fun x => by
    simpa using hC.get_put_field x []
  simp [box_offline_roundtrip, piv_box_seal_offline, piv_box_set_data, piv_box_new,
    piv_box_to_binary, piv_box_from_binary, get_guidslot, get_key_field,
    get_bytes_field, piv_box_open_offline, piv_box_take_data, hC.get_put_field,
    hlast, hC.get_put_key, hC.decrypt_encrypt, hC.ecdh_comm, bind, Except.bind,
    pure, Except.pure]

/-- Witness of `box_offline_roundtrip_exact` on the small instance: a
plaintext of three bytes sealed to the key pair (5, 5) with ephemeral key 7
and IV [1, 2] comes back. -/
theorem box_offline_roundtrip_exact_witness :
    (toy_prims.lawful ∧ 5 = toy_prims.pub_of 5) ∧
    box_offline_roundtrip toy_prims 7 [1, 2] 5 5 [10, 20, 30] = .ok [10, 20, 30] :=
  ⟨⟨toy_prims_lawful, rfl⟩,
   box_offline_roundtrip_exact toy_prims toy_prims_lawful 7 [1, 2] 5 5 rfl [10, 20, 30]⟩

end Piv
